import Mathlib

/-!
Verification model of the RTDS connection manager (src/rtds/connection.rs).

The embedding is shallow: each async task of the Rust source is rendered as a
pure Lean function over an explicit list of the events the task would await.
Machine integers (u32) are Nat with explicit saturation at 2^32 - 1.
Timestamps (std::time::Instant) are Nat. Fallible operations return Except.
-/

namespace RtdsModel

/-- ConnectionState (connection.rs lines 30-47): tagged connection state.
Instant timestamps are modelled as Nat. -/
inductive ConnectionState where
  | disconnected
  | connecting
  | connected (since : Nat)
  | reconnecting (attempt : Nat)
deriving DecidableEq, Repr

/-- ConnectionState::is_connected (connection.rs lines 50-54). -/
def ConnectionState.isConnected : ConnectionState → Bool
  | .connected _ => true
  | _ => false

/-- RtdsError variants reachable from connection.rs: ConnectionClosed (close
frame, or send on a closed channel) and Connection(e) (transport error). -/
inductive RtdsError where
  | connectionClosed
  | connection
deriving DecidableEq, Repr

/-- u32::MAX. -/
def U32MAX : Nat := 4294967295

/-- u32::saturating_add on Nat: the sum clamped to u32::MAX
(connection.rs line 149: attempt.saturating_add(1)). -/
def saturatingAdd (a b : Nat) : Nat := min (a + b) U32MAX

/-- Modelled from the spec: the reconnect backoff policy record
(spec section 3 Config; the backoff crate and rtds/config.rs are not under
src/). Jitter is modelled as deterministic (factor 0); delays are Nat. -/
structure BackoffPolicy where
  initialDelay : Nat
  maxDelay : Nat
  multiplier : Nat
deriving DecidableEq, Repr

/-- Modelled from the spec: mutable backoff state, the current delay
(spec sections 3 and 4.2: exponential growth from initial_delay by
multiplier, capped at max_delay; reset to initial_delay). -/
structure BackoffState where
  currentDelay : Nat
deriving DecidableEq, Repr

/-- Modelled from the spec: backoff.reset() sets the current delay back to
the initial delay (called at connection.rs line 122 on successful connect). -/
def BackoffState.reset (p : BackoffPolicy) : BackoffState :=
  ⟨p.initialDelay⟩

/-- Modelled from the spec: backoff.next_backoff() yields the current delay
and escalates it by the multiplier, capped at max_delay (called at
connection.rs line 164 before the sleep). -/
def nextBackoff (p : BackoffPolicy) (b : BackoffState) : Nat × BackoffState :=
  (b.currentDelay, ⟨min (b.currentDelay * p.multiplier) p.maxDelay⟩)

/-- One iteration outcome of connect_async(&endpoint) at connection.rs
line 119. On success, handle_connection runs to completion before the loop
continues; its Result is only logged (lines 128-141), so it does not appear
here. -/
inductive LoopEvent where
  | connectFail
  | connectOk (since : Nat)
deriving DecidableEq, Repr

/-- The observable behaviour of one run of connection_loop: the states
published to the watch cell in order (lines 116, 123, 157, 162), the backoff
delays slept (line 165), and whether the loop broke out (line 158). -/
structure LoopRun where
  states : List ConnectionState
  delays : List Nat
  terminated : Bool
deriving DecidableEq, Repr

/-- The stop test at connection.rs lines 154-156: max_attempts is configured
and the attempt counter has reached it. -/
def stopCheck : Option Nat → Nat → Bool
  | some m, att => decide (m ≤ att)
  | none, _ => false

/-- connection_loop (connection.rs lines 103-168), as a function of the
finite list of connect outcomes it consumes. Each iteration publishes
Connecting, attempts the connect, on failure saturating-increments the
attempt counter and on success zeroes it and resets the backoff, then either
breaks with a final Disconnected (when max_attempts is reached) or publishes
Reconnecting(attempt) and sleeps the next backoff delay. An empty event list
means the loop is still running, blocked on the next connect. -/
def connectionLoop (p : BackoffPolicy) (maxAttempts : Option Nat) :
    List LoopEvent → Nat → BackoffState → LoopRun
  | [], _, _ => ⟨[], [], false⟩
  | .connectFail :: rest, attempt, b =>
      let attempt2 := saturatingAdd attempt 1
      if stopCheck maxAttempts attempt2 then
        ⟨[.connecting, .disconnected], [], true⟩
      else
        let d := nextBackoff p b
        let t := connectionLoop p maxAttempts rest attempt2 d.2
        ⟨[.connecting, .reconnecting attempt2] ++ t.states, d.1 :: t.delays,
          t.terminated⟩
  | .connectOk since :: rest, _, _ =>
      if stopCheck maxAttempts 0 then
        ⟨[.connecting, .connected since, .disconnected], [], true⟩
      else
        let d := nextBackoff p (BackoffState.reset p)
        let t := connectionLoop p maxAttempts rest 0 d.2
        ⟨[.connecting, .connected since, .reconnecting 0] ++ t.states,
          d.1 :: t.delays, t.terminated⟩

/-- RtdsMessage (rtds/types/response.rs, external to the multiplexer): an
opaque structured domain message; the multiplexer only forwards it. -/
structure RtdsMessage where
  payload : Nat
deriving DecidableEq, Repr

/-- A WebSocket frame as discriminated by handle_connection
(connection.rs lines 193-234): text, close, or anything else (binary,
transport-level ping/pong), which the loop ignores. -/
inductive WsFrame where
  | text (s : String)
  | close
  | other
deriving DecidableEq, Repr

deriving instance DecidableEq for Except

/-- One event the select! at connection.rs lines 190-257 can wake on: an
inbound read result (Err models a read error), an outbound message dequeued
from sender_rx together with whether the socket write succeeds, a ping
request dequeued from ping_rx with its write result, or all channels
exhausted (the else branch). Each event carries the Instant::now() timestamp
at which it is handled. -/
inductive MpEvent where
  | inbound (r : Except Unit WsFrame)
  | outbound (text : String) (writeOk : Bool)
  | ping (writeOk : Bool)
  | channelsExhausted
deriving DecidableEq, Repr

/-- An observable action of the multiplexer loop: recording a pong timestamp
on the pong watch channel (line 195), broadcasting a parsed message
(line 206), reporting a decode failure to tracing (lines 209-214), writing a
text frame to the socket (lines 241, 248), or aborting the heartbeat task
(lines 218, 225, 261). -/
inductive MpAction where
  | recordPong (t : Nat)
  | broadcast (m : RtdsMessage)
  | reportDecodeError
  | sendFrame (s : String)
  | abortHeartbeat
deriving DecidableEq, Repr

/-- handle_connection (connection.rs lines 171-264) as a function of the
timestamped events its select! loop consumes, parameterised by the external
parse_messages collaborator. Returns the actions performed in order and,
when the loop has exited, the function's Result: none means the loop is
still running (blocked on select!). A text frame equal to "PONG" records a
pong timestamp; other text is parsed and each resulting message broadcast,
a parse error being reported and swallowed; a close frame or read error
aborts the heartbeat and returns an error; a failed write of an outbound or
"PING" frame breaks out of the loop, after which the heartbeat is aborted
and Ok(()) is returned; channel exhaustion breaks the same way. -/
def handleConnectionRun (parse : String → Except Unit (List RtdsMessage)) :
    List (Nat × MpEvent) → List MpAction × Option (Except RtdsError Unit)
  | [] => ([], none)
  | (t, ev) :: rest =>
      match ev with
      | .inbound (.ok (.text s)) =>
          if s = "PONG" then
            let r := handleConnectionRun parse rest
            (.recordPong t :: r.1, r.2)
          else
            match parse s with
            | .ok msgs =>
                let r := handleConnectionRun parse rest
                (msgs.map .broadcast ++ r.1, r.2)
            | .error _ =>
                let r := handleConnectionRun parse rest
                (.reportDecodeError :: r.1, r.2)
      | .inbound (.ok .close) =>
          ([.abortHeartbeat], some (.error .connectionClosed))
      | .inbound (.ok .other) => handleConnectionRun parse rest
      | .inbound (.error _) =>
          ([.abortHeartbeat], some (.error .connection))
      | .outbound s true =>
          let r := handleConnectionRun parse rest
          (.sendFrame s :: r.1, r.2)
      | .outbound _ false =>
          ([.abortHeartbeat], some (.ok ()))
      | .ping true =>
          let r := handleConnectionRun parse rest
          (.sendFrame "PING" :: r.1, r.2)
      | .ping false =>
          ([.abortHeartbeat], some (.ok ()))
      | .channelsExhausted =>
          ([.abortHeartbeat], some (.ok ()))

/-- The pong watch channel (connection.rs line 181): latest recorded pong
timestamp plus a version counter bumped by every send, as in
tokio::sync::watch. A receiver wait observes a change exactly when the
channel version exceeds the version the receiver has marked as seen. -/
structure PongChannel where
  value : Nat
  version : Nat
deriving DecidableEq, Repr

/-- Apply a list of pong recordings (each pong_tx.send at connection.rs
line 195) to the watch channel in order. -/
def pushPongs (ch : PongChannel) : List Nat → PongChannel
  | [] => ch
  | t :: rest => pushPongs ⟨t, ch.version + 1⟩ rest

/-- The environment of one heartbeat tick (connection.rs lines 276-321):
the connection state read at line 279, whether ping_tx still has a live
receiver (line 289), the Instant::now() recorded as ping_sent (line 288),
the pong timestamps recorded on the watch channel during the timeout-bounded
wait (line 295), and whether the pong sender was dropped during that wait
(the Ok(Err) branch, line 308). -/
structure TickInput where
  connected : Bool
  pingTxAlive : Bool
  pingSent : Nat
  waitPongs : List Nat
  pongSenderDropped : Bool
deriving DecidableEq, Repr

/-- How one heartbeat tick ends: each stop corresponds to a break in
heartbeat_loop (lines 280, 291, 305, 310, 319), continueMonitoring to
falling through to the next tick. -/
inductive TickOutcome where
  | stopNotConnected
  | stopPingChannelClosed
  | stopPongChannelClosed
  | stopStalePong
  | stopTimeout
  | continueMonitoring
deriving DecidableEq, Repr

/-- One iteration of heartbeat_loop (connection.rs lines 275-322). If not
connected, stop. Otherwise mark the channel's current version as seen
(drop(pong_rx.borrow_and_update()), line 285) before sending the ping, so
the wait can only be satisfied by a send made after the mark; send the ping
(stop if the multiplexer is gone); then wait: if the version moved past the
mark, read the latest value and stop when it is strictly older than
ping_sent, otherwise continue; if the version did not move, the wait ends by
channel closure or by timeout, and the monitor stops either way. -/
def heartbeatTick (ch : PongChannel) (inp : TickInput) : TickOutcome :=
  if inp.connected = false then .stopNotConnected
  else
    let seen := ch.version
    if inp.pingTxAlive = false then .stopPingChannelClosed
    else
      let chW := pushPongs ch inp.waitPongs
      if seen < chW.version then
        if chW.value < inp.pingSent then .stopStalePong
        else .continueMonitoring
      else if inp.pongSenderDropped then .stopPongChannelClosed
      else .stopTimeout

/-- The manager facade state (connection.rs lines 59-68 and 70-100):
the current value of the state watch cell, whether the connection_loop task
is still running (it owns sender_rx, which is dropped exactly when the loop
breaks), whether a handle_connection loop is currently consuming sender_rx,
and the messages buffered in the unbounded sender channel. -/
structure ManagerModel where
  stateValue : ConnectionState
  supervisorAlive : Bool
  multiplexerActive : Bool
  queue : List String
deriving DecidableEq, Repr

/-- ConnectionManager::new (connection.rs lines 72-100): the state watch
channel is created holding ConnectionState::Disconnected (line 75), the
supervisor task is spawned, no multiplexer exists yet, and the sender
channel is empty. -/
def ConnectionManager.new : ManagerModel :=
  ⟨.disconnected, true, false, []⟩

/-- ConnectionManager::send (connection.rs lines 326-332) after the request
has been serialised: sender_tx.send(json) on the unbounded channel succeeds,
enqueueing the message, exactly when the receiver (owned by connection_loop)
is still alive; otherwise it fails and send returns the ConnectionClosed
error. The call never blocks: an unbounded send is synchronous. -/
def ManagerModel.send (m : ManagerModel) (json : String) :
    ManagerModel × Except RtdsError Unit :=
  if m.supervisorAlive then
    ({ m with queue := m.queue ++ [json] }, .ok ())
  else
    (m, .error .connectionClosed)

/-- ConnectionManager::state (connection.rs lines 336-338): borrow the
current value of the state watch cell. -/
def ManagerModel.state (m : ManagerModel) : ConnectionState :=
  m.stateValue

/-- The state sequence published by a streak of k consecutive connect
failures that exhausts max_attempts when the counter starts at a:
Connecting then, while attempts remain, Reconnecting(a+1), and finally
Connecting, Disconnected on the exhausting attempt. -/
def failTrace : Nat → Nat → List ConnectionState
  | _, 0 => []
  | _, 1 => [.connecting, .disconnected]
  | a, k + 2 => [.connecting, .reconnecting (a + 1)] ++ failTrace (a + 1) (k + 1)

/-- A fixed parse_messages collaborator for concrete runs: rejects every
payload. -/
def parseNone : String → Except Unit (List RtdsMessage) :=
  fun _ => .error ()

/-- A facade state captured between connections: the supervisor task is
alive (it owns sender_rx for its whole life, connection.rs lines 103-168),
the previous connection's multiplexer has exited, and no new one exists
yet. -/
def betweenConnections : ManagerModel :=
  ⟨.reconnecting 1, true, false, []⟩

/-- The last element of a list, or the given value when the list is empty:
what a watch receiver reads after a list of sends. -/
def lastOr (d : Nat) : List Nat → Nat
  | [] => d
  | t :: rest => lastOr t rest

/-- C1 counterexample: between connections the previous multiplexer has
exited and no new one exists, yet send succeeds and enqueues the request
(the unbounded channel's receiver is owned by the still-running
connection_loop, connection.rs lines 103-168), so send does not return the
channel-closed error the claim requires at this moment. -/
theorem c1_counterexample :
    betweenConnections.multiplexerActive = false ∧
    (ManagerModel.send betweenConnections "req").2 = Except.ok () ∧
    (ManagerModel.send betweenConnections "req").2 ≠
      Except.error RtdsError.connectionClosed := by
  refine ⟨rfl, rfl, ?_⟩
  decide

/-- C1 amended: send fails with the channel-closed error exactly when the
supervisor task has terminated (terminal shutdown dropped sender_rx); while
the supervisor is alive — including between connections, when no
multiplexer exists — send succeeds and enqueues the serialized request on
the unbounded channel. send is a total function: it never blocks and never
panics. -/
theorem c1_send_closed_iff_supervisor_dead (m : ManagerModel) (json : String) :
    ((m.send json).2 = Except.error RtdsError.connectionClosed ↔
      m.supervisorAlive = false) ∧
    (m.supervisorAlive = true →
      (m.send json).2 = Except.ok () ∧
      (m.send json).1.queue = m.queue ++ [json]) ∧
    (m.supervisorAlive = false → (m.send json).1 = m) := by
  cases h : m.supervisorAlive <;> simp [ManagerModel.send, h]

/-- C1 amended, witnessed at a concrete input: a freshly constructed
manager's supervisor is alive, so send succeeds and enqueues. -/
theorem c1_witness :
    (ManagerModel.send ConnectionManager.new "req").2 = Except.ok () ∧
    (ManagerModel.send ConnectionManager.new "req").1.queue =
      ConnectionManager.new.queue ++ ["req"] :=
  (c1_send_closed_iff_supervisor_dead ConnectionManager.new "req").2.1 rfl

/-- C3 counterexample: a run whose only event is a failed write of an
outbound frame makes handle_connection break out of the loop and return
Ok(()) (connection.rs lines 241-243 and 260-263), not a
connection-terminated error as the claim requires. -/
theorem c3_counterexample :
    handleConnectionRun parseNone [(0, MpEvent.outbound "sub" false)] =
      ([MpAction.abortHeartbeat], some (Except.ok ())) ∧
    (handleConnectionRun parseNone [(0, MpEvent.outbound "sub" false)]).2 ≠
      some (Except.error RtdsError.connection) ∧
    (handleConnectionRun parseNone [(0, MpEvent.outbound "sub" false)]).2 ≠
      some (Except.error RtdsError.connectionClosed) := by
  refine ⟨rfl, ?_, ?_⟩ <;> decide

/-- C3 amended: a failed write of an outbound request frame, and likewise of
the "PING" frame, exits the Multiplexer loop, after which the heartbeat is
aborted and handle_connection returns Ok(()); only a close frame or a read
error make it return an error (ConnectionClosed resp. Connection). -/
theorem c3_write_failure_exits_with_ok
    (parse : String → Except Unit (List RtdsMessage)) (t : Nat) (s : String)
    (rest : List (Nat × MpEvent)) :
    handleConnectionRun parse ((t, MpEvent.outbound s false) :: rest) =
      ([MpAction.abortHeartbeat], some (Except.ok ())) ∧
    handleConnectionRun parse ((t, MpEvent.ping false) :: rest) =
      ([MpAction.abortHeartbeat], some (Except.ok ())) ∧
    handleConnectionRun parse ((t, MpEvent.inbound (Except.ok WsFrame.close)) :: rest) =
      ([MpAction.abortHeartbeat], some (Except.error RtdsError.connectionClosed)) ∧
    handleConnectionRun parse ((t, MpEvent.inbound (Except.error ())) :: rest) =
      ([MpAction.abortHeartbeat], some (Except.error RtdsError.connection)) :=
  ⟨rfl, rfl, rfl, rfl⟩

/-- C7: an inbound text frame that is not "PONG" and whose decoding fails
contributes exactly a decode-failure report to the observability
collaborator: nothing is broadcast for that frame, and the loop's remaining
behaviour — including whether and how it terminates — is exactly that of
the remaining events, so the connection is not terminated by the failure. -/
theorem c7_decode_failure_swallowed
    (parse : String → Except Unit (List RtdsMessage)) (t : Nat) (s : String)
    (rest : List (Nat × MpEvent)) (hs : s ≠ "PONG")
    (hp : parse s = Except.error ()) :
    handleConnectionRun parse ((t, MpEvent.inbound (Except.ok (WsFrame.text s))) :: rest) =
      (MpAction.reportDecodeError :: (handleConnectionRun parse rest).1,
        (handleConnectionRun parse rest).2) := by
  simp only [handleConnectionRun]
  rw [if_neg hs, hp]

/-- C7 witnessed at a concrete input: one undecodable frame produces exactly
the report, no broadcast, and leaves the loop running. -/
theorem c7_witness :
    handleConnectionRun parseNone [(3, MpEvent.inbound (Except.ok (WsFrame.text "bad")))] =
      ([MpAction.reportDecodeError], none) :=
  c7_decode_failure_swallowed parseNone 3 "bad" [] (by decide) rfl

/-- C8: an inbound text frame equal to the literal "PONG" contributes
exactly a pong-timestamp recording — it is neither given to the decoder
(the run is the same for every parse collaborator) nor broadcast — while
any other text frame is handed to the decoder, whose outcome determines the
broadcasts or the decode-failure report. -/
theorem c8_pong_recorded_never_forwarded
    (parse : String → Except Unit (List RtdsMessage)) (t : Nat)
    (rest : List (Nat × MpEvent)) :
    (handleConnectionRun parse ((t, MpEvent.inbound (Except.ok (WsFrame.text "PONG"))) :: rest) =
      (MpAction.recordPong t :: (handleConnectionRun parse rest).1,
        (handleConnectionRun parse rest).2)) ∧
    ∀ s, s ≠ "PONG" →
      handleConnectionRun parse ((t, MpEvent.inbound (Except.ok (WsFrame.text s))) :: rest) =
        (match parse s with
          | .ok msgs =>
              (msgs.map .broadcast ++ (handleConnectionRun parse rest).1,
                (handleConnectionRun parse rest).2)
          | .error _ =>
              (MpAction.reportDecodeError :: (handleConnectionRun parse rest).1,
                (handleConnectionRun parse rest).2)) := by
  constructor
  · rfl
  · intro s hs
    simp only [handleConnectionRun]
    rw [if_neg hs]

/-- C8 witnessed at a concrete input: a "PONG" frame records its timestamp
and forwards nothing, even under a parse collaborator that rejects every
payload — the decoder is never consulted. -/
theorem c8_witness :
    handleConnectionRun parseNone [(5, MpEvent.inbound (Except.ok (WsFrame.text "PONG")))] =
      ([MpAction.recordPong 5], none) :=
  (c8_pong_recorded_never_forwarded parseNone 5 []).1

/-- C9: the state watch cell is created holding Disconnected
(connection.rs line 75), so state() reads Disconnected immediately after
new() returns, and the terminal exhaustion path publishes the very same
Disconnected value as its last state — the two situations are
indistinguishable by the state value alone. -/
theorem c9_initial_state_equals_terminal_state :
    ManagerModel.state ConnectionManager.new = ConnectionState.disconnected ∧
    ∀ (p : BackoffPolicy) (b : BackoffState),
      (connectionLoop p (some 1) [LoopEvent.connectFail] 0 b).states.getLast? =
        some (ManagerModel.state ConnectionManager.new) := by
  exact ⟨rfl, fun p b => rfl⟩

/-- C5: whenever a Multiplexer loop run returns a Result — on any exit
path: close frame, read error, failed write of an outbound or "PING"
frame, or channel exhaustion — aborting the heartbeat task is among the
actions performed, so the heartbeat task never outlives its connection. -/
theorem c5_heartbeat_aborted_on_exit
    (parse : String → Except Unit (List RtdsMessage)) :
    ∀ (events : List (Nat × MpEvent)) (r : Except RtdsError Unit),
      (handleConnectionRun parse events).2 = some r →
      MpAction.abortHeartbeat ∈ (handleConnectionRun parse events).1 := by
  intro events
  induction events with
  | nil =>
      intro r h
      simp [handleConnectionRun] at h
  | cons ev rest ih =>
      intro r h
      obtain ⟨t, e⟩ := ev
      cases e with
      | inbound rr =>
          cases rr with
          | ok f =>
              cases f with
              | text s =>
                  by_cases hs : s = "PONG"
                  · subst hs
                    simp only [handleConnectionRun, if_pos rfl] at h ⊢
                    exact List.mem_cons_of_mem _ (ih r h)
                  · simp only [handleConnectionRun] at h ⊢
                    rw [if_neg hs] at h ⊢
                    cases hp : parse s with
                    | ok msgs =>
                        rw [hp] at h
                        exact List.mem_append.mpr (Or.inr (ih r h))
                    | error u =>
                        rw [hp] at h
                        exact List.mem_cons_of_mem _ (ih r h)
              | close => simp [handleConnectionRun]
              | other =>
                  simp only [handleConnectionRun] at h ⊢
                  exact ih r h
          | error u => simp [handleConnectionRun]
      | outbound s w =>
          cases w with
          | false => simp [handleConnectionRun]
          | true =>
              simp only [handleConnectionRun] at h ⊢
              exact List.mem_cons_of_mem _ (ih r h)
      | ping w =>
          cases w with
          | false => simp [handleConnectionRun]
          | true =>
              simp only [handleConnectionRun] at h ⊢
              exact List.mem_cons_of_mem _ (ih r h)
      | channelsExhausted => simp [handleConnectionRun]

/-- C5 witnessed at a concrete input: a run that exits by channel
exhaustion has the heartbeat abort among its actions. -/
theorem c5_witness :
    MpAction.abortHeartbeat ∈
      (handleConnectionRun parseNone [(0, MpEvent.channelsExhausted)]).1 :=
  c5_heartbeat_aborted_on_exit parseNone [(0, MpEvent.channelsExhausted)]
    (Except.ok ()) rfl

/-- lastOr computes getLast? on nonempty lists, for every default. -/
theorem lastOr_eq_getLast (l : List Nat) : ∀ d : Nat, l ≠ [] →
    l.getLast? = some (lastOr d l) := by
  induction l with
  | nil => intro d h; exact absurd rfl h
  | cons t rest ih =>
      intro d _
      cases rest with
      | nil => rfl
      | cons a as =>
          rw [List.getLast?_cons_cons]
          exact ih t (by simp)

/-- The watch channel after a list of sends: the version has advanced by
the number of sends, and the value is the last sent timestamp (or the
original value when nothing was sent). -/
theorem pushPongs_spec (l : List Nat) : ∀ ch : PongChannel,
    (pushPongs ch l).version = ch.version + l.length ∧
    (pushPongs ch l).value = lastOr ch.value l := by
  induction l with
  | nil => intro ch; simp [pushPongs, lastOr]
  | cons t rest ih =>
      intro ch
      have h := ih ⟨t, ch.version + 1⟩
      refine ⟨?_, ?_⟩
      · rw [pushPongs, h.1]
        simp [List.length_cons]
        omega
      · rw [pushPongs, h.2]
        rfl

/-- C4: a pong recorded and consumed before the ping is sent never
satisfies that ping's wait. The tick continues monitoring only when the wait
window itself contains a pong whose timestamp is at least ping_sent; with no
new pong in the window the tick stops (by timeout or channel closure)
whatever stale value and version the pong channel held beforehand; a wait
that completes with a timestamp strictly earlier than ping_sent stops as
stale; and an empty window with the channel still open stops by timeout. -/
theorem heartbeatTick_eq (ch : PongChannel) (inp : TickInput) :
    heartbeatTick ch inp =
      if inp.connected = false then TickOutcome.stopNotConnected
      else if inp.pingTxAlive = false then TickOutcome.stopPingChannelClosed
      else if 0 < inp.waitPongs.length then
        (if lastOr ch.value inp.waitPongs < inp.pingSent then
          TickOutcome.stopStalePong
        else TickOutcome.continueMonitoring)
      else if inp.pongSenderDropped then TickOutcome.stopPongChannelClosed
      else TickOutcome.stopTimeout := by
  obtain ⟨hver, hval⟩ := pushPongs_spec inp.waitPongs ch
  have hiff : (ch.version < (pushPongs ch inp.waitPongs).version) ↔
      0 < inp.waitPongs.length := by
    rw [hver]
    omega
  simp only [heartbeatTick, hiff, hval]

theorem c4_no_false_positive_liveness (ch : PongChannel) (inp : TickInput) :
    (heartbeatTick ch inp = TickOutcome.continueMonitoring →
      ∃ last, inp.waitPongs.getLast? = some last ∧ inp.pingSent ≤ last) ∧
    (inp.waitPongs = [] →
      heartbeatTick ch inp ≠ TickOutcome.continueMonitoring) ∧
    (∀ last, inp.connected = true → inp.pingTxAlive = true →
      inp.waitPongs.getLast? = some last → last < inp.pingSent →
      heartbeatTick ch inp = TickOutcome.stopStalePong) ∧
    (inp.connected = true → inp.pingTxAlive = true → inp.waitPongs = [] →
      inp.pongSenderDropped = false →
      heartbeatTick ch inp = TickOutcome.stopTimeout) := by
  have hcont : heartbeatTick ch inp = TickOutcome.continueMonitoring →
      ∃ last, inp.waitPongs.getLast? = some last ∧ inp.pingSent ≤ last := by
    intro h
    rw [heartbeatTick_eq] at h
    split_ifs at h with h1 h2 h3 h4
    have hne : inp.waitPongs ≠ [] := by
      intro hnil
      rw [hnil] at h3
      simp at h3
    exact ⟨lastOr ch.value inp.waitPongs, lastOr_eq_getLast _ _ hne,
      by omega⟩
  refine ⟨hcont, ?_, ?_, ?_⟩
  · intro hnil h
    obtain ⟨last, hl, _⟩ := hcont h
    rw [hnil] at hl
    simp at hl
  · intro last hc hpt hl hlt
    have hne : inp.waitPongs ≠ [] := by
      intro hnil
      rw [hnil] at hl
      simp at hl
    have hlast : lastOr ch.value inp.waitPongs = last := by
      have hgl := lastOr_eq_getLast inp.waitPongs ch.value hne
      rw [hl] at hgl
      exact (Option.some.inj hgl).symm
    have hlen : 0 < inp.waitPongs.length := List.length_pos.mpr hne
    simp [heartbeatTick_eq, hc, hpt, hlen, hlast, hlt]
  · intro hc hpt hnil hd
    simp [heartbeatTick_eq, hc, hpt, hnil, hd]

/-- C4 witnessed at the spec's own example: a pong already in the channel
(recorded at time 0, version 7, consumed), a ping sent at time 1, and no
further pong within the wait: the monitor stops by timeout. -/
theorem c4_witness :
    heartbeatTick ⟨0, 7⟩ ⟨true, true, 1, [], false⟩ = TickOutcome.stopTimeout :=
  (c4_no_false_positive_liveness ⟨0, 7⟩ ⟨true, true, 1, [], false⟩).2.2.2
    rfl rfl rfl rfl

/-- One failing iteration of connection_loop, unfolded. -/
theorem connectionLoop_fail_step (p : BackoffPolicy) (maxA : Option Nat)
    (rest : List LoopEvent) (a : Nat) (b : BackoffState) :
    connectionLoop p maxA (LoopEvent.connectFail :: rest) a b =
      if stopCheck maxA (saturatingAdd a 1) then
        ⟨[.connecting, .disconnected], [], true⟩
      else
        ⟨[.connecting, .reconnecting (saturatingAdd a 1)] ++
            (connectionLoop p maxA rest (saturatingAdd a 1)
              (nextBackoff p b).2).states,
          (nextBackoff p b).1 ::
            (connectionLoop p maxA rest (saturatingAdd a 1)
              (nextBackoff p b).2).delays,
          (connectionLoop p maxA rest (saturatingAdd a 1)
            (nextBackoff p b).2).terminated⟩ :=
  rfl

/-- One successful iteration of connection_loop, unfolded: the attempt
counter is zeroed and the backoff reset before the post-connection
next_backoff. -/
theorem connectionLoop_ok_step (p : BackoffPolicy) (maxA : Option Nat)
    (rest : List LoopEvent) (a s : Nat) (b : BackoffState) :
    connectionLoop p maxA (LoopEvent.connectOk s :: rest) a b =
      if stopCheck maxA 0 then
        ⟨[.connecting, .connected s, .disconnected], [], true⟩
      else
        ⟨[.connecting, .connected s, .reconnecting 0] ++
            (connectionLoop p maxA rest 0
              (nextBackoff p (BackoffState.reset p)).2).states,
          (nextBackoff p (BackoffState.reset p)).1 ::
            (connectionLoop p maxA rest 0
              (nextBackoff p (BackoffState.reset p)).2).delays,
          (connectionLoop p maxA rest 0
            (nextBackoff p (BackoffState.reset p)).2).terminated⟩ :=
  rfl

/-- A streak of k consecutive connect failures starting at attempt a with
max_attempts = a + k publishes exactly failTrace a k and terminates the
supervisor; events queued after the exhausting failure are never consumed. -/
theorem connectionLoop_allFail (p : BackoffPolicy) (extra : List LoopEvent) :
    ∀ (k a : Nat) (b : BackoffState), 1 ≤ k → a + k ≤ U32MAX →
      (connectionLoop p (some (a + k))
          (List.replicate k LoopEvent.connectFail ++ extra) a b).states =
        failTrace a k ∧
      (connectionLoop p (some (a + k))
          (List.replicate k LoopEvent.connectFail ++ extra) a b).terminated =
        true := by
  intro k
  induction k with
  | zero =>
      intro a b hk _
      omega
  | succ k ih =>
      intro a b hk hle
      have hsat : saturatingAdd a 1 = a + 1 :=
        Nat.min_eq_left (by omega)
      cases k with
      | zero =>
          rw [List.replicate_succ, List.replicate_zero, List.cons_append,
            List.nil_append, connectionLoop_fail_step, hsat]
          have hstop : stopCheck (some (a + 1)) (a + 1) = true := by
            simp [stopCheck]
          rw [hstop]
          simp [failTrace]
      | succ k2 =>
          rw [List.replicate_succ, List.cons_append,
            connectionLoop_fail_step, hsat]
          have hstop : stopCheck (some (a + (k2 + 2))) (a + 1) = false := by
            simp [stopCheck]
          rw [hstop]
          have hmx : a + (k2 + 2) = (a + 1) + (k2 + 1) := by omega
          rw [hmx]
          obtain ⟨hs, ht⟩ :=
            ih (a + 1) (nextBackoff p b).2 (by omega) (by omega)
          simp only [if_neg Bool.false_ne_true]
          refine ⟨?_, ?_⟩
          · rw [hs]
            simp [failTrace]
          · exact ht

/-- failTrace spelled out: Connecting, Reconnecting(a+1), Connecting,
Reconnecting(a+2), ..., Reconnecting(a+k-1), Connecting, Disconnected. -/
theorem failTrace_eq_range (k : Nat) : ∀ a : Nat, 1 ≤ k →
    failTrace a k =
      ((List.range (k - 1)).map
        (fun i => [ConnectionState.connecting,
          ConnectionState.reconnecting (a + 1 + i)])).flatten ++
      [ConnectionState.connecting, ConnectionState.disconnected] := by
  induction k with
  | zero =>
      intro a h
      omega
  | succ k ih =>
      intro a _
      cases k with
      | zero => simp [failTrace]
      | succ k2 =>
          have h1 : failTrace a (k2 + 2) =
              [ConnectionState.connecting,
                ConnectionState.reconnecting (a + 1)] ++
              failTrace (a + 1) (k2 + 1) := by
            simp [failTrace]
          rw [h1, ih (a + 1) (by omega)]
          have h2 : (k2 + 1 + 1) - 1 = k2 + 1 := by omega
          have h3 : (k2 + 1) - 1 = k2 := by omega
          rw [h2, h3, List.range_succ_eq_map]
          simp only [List.map_cons, List.map_map, List.flatten_cons,
            Nat.add_zero, List.append_assoc]
          refine congrArg _ ?_
          refine congrArg (fun l => l ++ _) ?_
          refine congrArg List.flatten ?_
          refine List.map_congr_left ?_
          intro i _
          simp only [Function.comp]
          have : a + 1 + 1 + i = a + 1 + (i + 1) := by omega
          rw [this]

/-- C2: with max_attempts = N, a streak of N consecutive connect failures
publishes exactly Connecting, Reconnecting(1), Connecting, Reconnecting(2),
..., Reconnecting(N-1), Connecting, Disconnected; the supervisor then
terminates permanently — whatever events could come after the exhausting
failure are never consumed, so no further Connecting is ever published. -/
theorem c2_exhaustion_state_sequence (p : BackoffPolicy) (b : BackoffState)
    (extra : List LoopEvent) (N : Nat) (h1 : 1 ≤ N) (h2 : N ≤ U32MAX) :
    (connectionLoop p (some N)
        (List.replicate N LoopEvent.connectFail ++ extra) 0 b).states =
      ((List.range (N - 1)).map
        (fun i => [ConnectionState.connecting,
          ConnectionState.reconnecting (i + 1)])).flatten ++
      [ConnectionState.connecting, ConnectionState.disconnected] ∧
    (connectionLoop p (some N)
        (List.replicate N LoopEvent.connectFail ++ extra) 0 b).terminated =
      true := by
  have h := connectionLoop_allFail p extra N 0 b h1 (by omega)
  rw [Nat.zero_add] at h
  refine ⟨?_, h.2⟩
  rw [h.1, failTrace_eq_range N 0 h1]
  refine congrArg (fun l => l ++ _) ?_
  refine congrArg List.flatten ?_
  refine List.map_congr_left ?_
  intro i _
  have : 0 + 1 + i = i + 1 := by omega
  rw [this]

/-- C2 witnessed at N = 3: the published sequence is Connecting,
Reconnecting(1), Connecting, Reconnecting(2), Connecting, Disconnected, and
the supervisor terminates without consuming a queued successful connect. -/
theorem c2_witness :
    (connectionLoop ⟨1, 8, 2⟩ (some 3)
        (List.replicate 3 LoopEvent.connectFail ++ [LoopEvent.connectOk 9])
        0 ⟨1⟩).states =
      [ConnectionState.connecting, ConnectionState.reconnecting 1,
        ConnectionState.connecting, ConnectionState.reconnecting 2,
        ConnectionState.connecting, ConnectionState.disconnected] ∧
    (connectionLoop ⟨1, 8, 2⟩ (some 3)
        (List.replicate 3 LoopEvent.connectFail ++ [LoopEvent.connectOk 9])
        0 ⟨1⟩).terminated = true := by
  have h := c2_exhaustion_state_sequence ⟨1, 8, 2⟩ ⟨1⟩ [LoopEvent.connectOk 9]
    3 (by decide) (by decide)
  exact ⟨by rw [h.1]; rfl, h.2⟩

/-- C6 counterexample: policy initial_delay = 1, max_delay = 100,
multiplier = 2, run fail, fail, success, fail, fail. The slept delays are
1, 2, 1, 2, 4: the reset shows in the third delay (the sleep right after
the success is back to 1), but the delay following the subsequent failure —
the fourth — is 2 = initial_delay * multiplier, because the post-success
sleep already consumed the initial delay; the claim requires it to equal
initial_delay = 1. -/
theorem c6_counterexample :
    (connectionLoop ⟨1, 100, 2⟩ none
        [LoopEvent.connectFail, LoopEvent.connectFail, LoopEvent.connectOk 5,
          LoopEvent.connectFail, LoopEvent.connectFail] 0 ⟨1⟩).delays =
      [1, 2, 1, 2, 4] ∧
    (BackoffPolicy.mk 1 100 2).initialDelay ≠ 2 := by
  exact ⟨rfl, by decide⟩

/-- C6 amended: after any successful connect the attempt counter restarts
at zero (Reconnecting 0 is published) and the backoff restarts from
initial_delay regardless of the escalation the incoming backoff state
carried: the sleep immediately after the success equals initial_delay, and
the delay following the first subsequent failure equals
min(initial_delay * multiplier, max_delay) — the once-escalated restart
value, never a value carried over from before the success. The reset
happens only on a successful connect: a failure iteration sleeps the
incoming current delay unchanged. -/
theorem c6_backoff_reset_only_on_success (p : BackoffPolicy) :
    (∀ (rest : List LoopEvent) (a s : Nat) (b : BackoffState),
      (connectionLoop p none (LoopEvent.connectOk s :: rest) a b).delays.head? =
        some p.initialDelay ∧
      (connectionLoop p none (LoopEvent.connectOk s :: rest) a b).states.take 3 =
        [ConnectionState.connecting, ConnectionState.connected s,
          ConnectionState.reconnecting 0]) ∧
    (∀ (rest2 : List LoopEvent) (a s : Nat) (b : BackoffState),
      (connectionLoop p none
          (LoopEvent.connectOk s :: LoopEvent.connectFail :: rest2)
          a b).delays.take 2 =
        [p.initialDelay, min (p.initialDelay * p.multiplier) p.maxDelay]) ∧
    (∀ (rest : List LoopEvent) (a : Nat) (b : BackoffState),
      (connectionLoop p none (LoopEvent.connectFail :: rest) a b).delays.head? =
        some b.currentDelay) := by
  refine ⟨fun rest a s b => ⟨?_, ?_⟩, fun rest2 a s b => ?_, fun rest a b => ?_⟩
  · rw [connectionLoop_ok_step]
    rfl
  · rw [connectionLoop_ok_step]
    rfl
  · rw [connectionLoop_ok_step]
    simp only [stopCheck, if_neg Bool.false_ne_true]
    rw [connectionLoop_fail_step]
    simp only [stopCheck, if_neg Bool.false_ne_true]
    rfl
  · rw [connectionLoop_fail_step]
    rfl

/-- C10: the attempt counter uses saturating arithmetic — one more failure
never exceeds u32::MAX and at u32::MAX it stays put — and with max_attempts
unset the supervisor never terminates and never publishes Disconnected:
every published Reconnecting carries an attempt number at most u32::MAX,
for every run starting from any attempt value within range. -/
theorem c10_saturating_attempt_unbounded_retries (p : BackoffPolicy)
    (events : List LoopEvent) :
    saturatingAdd U32MAX 1 = U32MAX ∧
    (∀ a : Nat, saturatingAdd a 1 ≤ U32MAX) ∧
    (∀ (a : Nat) (b : BackoffState), a ≤ U32MAX →
      (connectionLoop p none events a b).terminated = false ∧
      ConnectionState.disconnected ∉ (connectionLoop p none events a b).states ∧
      (∀ k, ConnectionState.reconnecting k ∈
          (connectionLoop p none events a b).states → k ≤ U32MAX)) := by
  refine ⟨rfl, fun a => Nat.min_le_right _ _, ?_⟩
  induction events with
  | nil =>
      intro a b _
      refine ⟨rfl, by simp [connectionLoop], ?_⟩
      intro k hk
      simp [connectionLoop] at hk
  | cons ev rest ih =>
      intro a b ha
      cases ev with
      | connectFail =>
          rw [connectionLoop_fail_step]
          simp only [stopCheck, if_neg Bool.false_ne_true]
          have ha2 : saturatingAdd a 1 ≤ U32MAX := Nat.min_le_right _ _
          obtain ⟨ht, hd, hr⟩ := ih (saturatingAdd a 1) (nextBackoff p b).2 ha2
          refine ⟨ht, ?_, ?_⟩
          · simp [List.mem_append, List.mem_cons, hd]
          · intro k hk
            simp at hk
            rcases hk with hk | hk
            · rw [hk]
              exact ha2
            · exact hr k hk
      | connectOk s =>
          rw [connectionLoop_ok_step]
          simp only [stopCheck, if_neg Bool.false_ne_true]
          obtain ⟨ht, hd, hr⟩ :=
            ih 0 (nextBackoff p (BackoffState.reset p)).2 (by decide)
          refine ⟨ht, ?_, ?_⟩
          · simp [List.mem_append, List.mem_cons, hd]
          · intro k hk
            simp at hk
            rcases hk with hk | hk
            · rw [hk]
              exact Nat.zero_le _
            · exact hr k hk

/-- C10 witnessed at a concrete input: one failure under unbounded retries
leaves the supervisor running with no Disconnected published, and a
saturating increment from u32::MAX stays at u32::MAX. -/
theorem c10_witness :
    saturatingAdd U32MAX 1 = U32MAX ∧
    (connectionLoop ⟨1, 8, 2⟩ none [LoopEvent.connectFail] 0 ⟨1⟩).terminated =
      false ∧
    ConnectionState.disconnected ∉
      (connectionLoop ⟨1, 8, 2⟩ none [LoopEvent.connectFail] 0 ⟨1⟩).states := by
  have h := c10_saturating_attempt_unbounded_retries ⟨1, 8, 2⟩
    [LoopEvent.connectFail]
  obtain ⟨hs, _, hrun⟩ := h
  obtain ⟨ht, hd, _⟩ := hrun 0 ⟨1⟩ (by decide)
  exact ⟨hs, ht, hd⟩

end RtdsModel
